import Mathlib

/-!
Shallow embedding of the STM32F4 sample-acquisition pipeline
(ring buffer driver, ADC driver, error tracker) and proofs of the
specified properties.

Modelling conventions:
* C unsigned integers are modelled as `Nat`; wherever C wrap-around can
  occur the embedding applies the explicit modulus (`% 65536` for
  `uint16_t` arithmetic).  Index arithmetic `(i + 1) % size` is already
  the C expression and needs no extra modulus because `size < 2^16`.
* A C pointer parameter that the code checks against `NULL` is modelled
  as `Option _` (`none` = NULL) in the `_ptr` wrappers; the functions on
  the bare structures are the bodies executed after a successful NULL
  check, i.e. the valid-pointer case.
* The backing storage array is a `List Nat`; `List.set` is the array
  store and `List.getD _ 0` the array load.
-/

namespace STM32F4

/-- `ring_buffer_t` from include/drivers/buffer.h: storage pointer,
write index `head`, read index `tail`, capacity `size`, element count
`count`, and the `full` flag (all index/count fields are `uint16_t`). -/
structure ring_buffer_t where
  buffer : List Nat
  head   : Nat
  tail   : Nat
  size   : Nat
  count  : Nat
  full   : Bool
deriving Repr, DecidableEq

/-- `ring_buffer_init` (valid-pointer case): the caller supplies the
backing storage (whose contents the C code does not zero); the function
records the capacity and resets all indices. The C function additionally
fails on `rb == NULL`, `buffer == NULL` or `size == 0`; those guard
branches are modelled by `ring_buffer_init_ptr` below. -/
def ring_buffer_init (store : List Nat) : ring_buffer_t :=
  { buffer := store, head := 0, tail := 0, size := store.length,
    count := 0, full := false }

/-- `ring_buffer_write` (valid-pointer case). Stores at `head`, advances
`head` and increments `count` (a `uint16_t`, hence `% 65536`); if the new
`head` caught up with `tail` it sets `full`, advances `tail` and clamps
`count` to `size`. Always returns true. -/
def ring_buffer_write (rb : ring_buffer_t) (data : Nat) : Bool × ring_buffer_t :=
  let rb1 : ring_buffer_t :=
    { rb with buffer := rb.buffer.set rb.head data,
              head := (rb.head + 1) % rb.size,
              count := (rb.count + 1) % 65536 }
  if rb1.head = rb1.tail then
    (true, { rb1 with full := true,
                      tail := (rb1.tail + 1) % rb1.size,
                      count := rb1.size })
  else
    (true, rb1)

/-- `ring_buffer_is_empty` (valid-pointer case). -/
def ring_buffer_is_empty (rb : ring_buffer_t) : Bool :=
  rb.count == 0

/-- `ring_buffer_read` (valid-pointer case, valid `data` out-pointer).
Returns the success flag, the updated buffer, and the value stored
through `*data` (`none` when the code returns without writing it).
On the empty-buffer early return the buffer is left untouched. -/
def ring_buffer_read (rb : ring_buffer_t) : Bool × ring_buffer_t × Option Nat :=
  if ring_buffer_is_empty rb then
    (false, rb, none)
  else
    (true,
     { rb with tail := (rb.tail + 1) % rb.size,
               count := rb.count - 1,
               full := false },
     some (rb.buffer.getD rb.tail 0))

/-- `ring_buffer_peek` (valid-pointer case, valid `data` out-pointer).
The C function never writes to `*rb`, which the embedding reflects by
not returning a state. -/
def ring_buffer_peek (rb : ring_buffer_t) (offset : Nat) : Bool × Option Nat :=
  if offset ≥ rb.count then
    (false, none)
  else
    (true, some (rb.buffer.getD ((rb.tail + offset) % rb.size) 0))

/-- `ring_buffer_is_full` (valid-pointer case). -/
def ring_buffer_is_full (rb : ring_buffer_t) : Bool :=
  rb.full

/-- `ring_buffer_count` (valid-pointer case). -/
def ring_buffer_count (rb : ring_buffer_t) : Nat :=
  rb.count

/-- `ring_buffer_clear` (valid-pointer case): resets indices, count and
the full flag; the storage contents are left as they are. -/
def ring_buffer_clear (rb : ring_buffer_t) : ring_buffer_t :=
  { rb with head := 0, tail := 0, count := 0, full := false }

/-- `ring_buffer_init` including its NULL/zero-size guards:
`rb == NULL` (first argument `none`), `buffer == NULL` (second argument
`none`) or `size == 0` yield `(false, unchanged pointee)`. -/
def ring_buffer_init_ptr (rb : Option ring_buffer_t) (store : Option (List Nat))
    (size : Nat) : Bool × Option ring_buffer_t :=
  match rb, store with
  | none, _ => (false, none)
  | some s, none => (false, some s)
  | some s, some st =>
      if size = 0 then (false, some s)
      else (true, some { buffer := st, head := 0, tail := 0, size := size,
                         count := 0, full := false })

/-- `ring_buffer_write` including its NULL guard. -/
def ring_buffer_write_ptr (rb : Option ring_buffer_t) (data : Nat) :
    Bool × Option ring_buffer_t :=
  match rb with
  | none => (false, none)
  | some s => ((ring_buffer_write s data).1, some (ring_buffer_write s data).2)

/-- `ring_buffer_read` including its NULL guard. -/
def ring_buffer_read_ptr (rb : Option ring_buffer_t) :
    Bool × Option ring_buffer_t × Option Nat :=
  match rb with
  | none => (false, none, none)
  | some s => ((ring_buffer_read s).1, some (ring_buffer_read s).2.1,
               (ring_buffer_read s).2.2)

/-- `ring_buffer_peek` including its NULL guard. -/
def ring_buffer_peek_ptr (rb : Option ring_buffer_t) (offset : Nat) :
    Bool × Option Nat :=
  match rb with
  | none => (false, none)
  | some s => ring_buffer_peek s offset

/-- `ring_buffer_is_empty` including its NULL guard (NULL reads as empty). -/
def ring_buffer_is_empty_ptr (rb : Option ring_buffer_t) : Bool :=
  match rb with
  | none => true
  | some s => ring_buffer_is_empty s

/-- `ring_buffer_is_full` including its NULL guard (NULL reads as not full). -/
def ring_buffer_is_full_ptr (rb : Option ring_buffer_t) : Bool :=
  match rb with
  | none => false
  | some s => ring_buffer_is_full s

/-- `ring_buffer_count` including its NULL guard (NULL counts as 0). -/
def ring_buffer_count_ptr (rb : Option ring_buffer_t) : Nat :=
  match rb with
  | none => 0
  | some s => ring_buffer_count s

/-- `ring_buffer_clear` including its NULL guard (no-op on NULL). -/
def ring_buffer_clear_ptr (rb : Option ring_buffer_t) : Option ring_buffer_t :=
  match rb with
  | none => none
  | some s => some (ring_buffer_clear s)

/-- Apply `ring_buffer_write` for each element of a list, left to right. -/
def ring_buffer_write_seq (rb : ring_buffer_t) (xs : List Nat) : ring_buffer_t :=
  xs.foldl (fun s x => (ring_buffer_write s x).2) rb

/-- Read the buffer `n` times, collecting the values successful reads
produce, in order. -/
def ring_buffer_drain : Nat → ring_buffer_t → List Nat
  | 0, _ => []
  | n + 1, rb =>
      match ring_buffer_read rb with
      | (true, rb2, some d) => d :: ring_buffer_drain n rb2
      | _ => []

/-! ## Error/fault tracker (src/src/utils/error.c) -/

/-- `MAX_ERROR_HISTORY` from src/src/utils/error.c. -/
def MAX_ERROR_HISTORY : Nat := 10

/-- `error_t` from include/utils/error.h. `code` is the `error_code_t`
enumerand's numeric value, `severity` a `uint8_t`, `message` a
`const char *` (`none` = NULL). `error_report` never assigns
`timestamp_ms` (the assignment is commented out in the source), so the
field keeps whatever the slot held. -/
structure error_t where
  code         : Nat
  timestamp_ms : Nat
  severity     : Nat
  message      : Option String
deriving Repr, DecidableEq

/-- The all-zero record `memset` leaves in each history slot. -/
def error_zero : error_t :=
  { code := 0, timestamp_ms := 0, severity := 0, message := none }

/-- The module's static variables: `error_history`, `error_count`
(`uint16_t`), `error_index` (`uint16_t`), `critical_error_flag`. -/
structure error_state where
  error_history       : List error_t
  error_count         : Nat
  error_index         : Nat
  critical_error_flag : Bool
deriving Repr, DecidableEq

/-- `error_init`: zeroes the counters, the flag and the history. -/
def error_init : error_state :=
  { error_history := List.replicate MAX_ERROR_HISTORY error_zero,
    error_count := 0, error_index := 0, critical_error_flag := false }

/-- `error_report`: overwrites `code`, `severity` and `message` of the
slot at `error_index` (leaving the slot's `timestamp_ms` as it was),
increments `error_count` (a `uint16_t`, hence `% 65536`), sets the
critical flag when `severity >= 3`, and advances `error_index` mod
`MAX_ERROR_HISTORY`. -/
def error_report (st : error_state) (code : Nat) (severity : Nat)
    (message : Option String) : error_state :=
  let old := st.error_history.getD st.error_index error_zero
  let err : error_t :=
    { code := code, severity := severity, message := message,
      timestamp_ms := old.timestamp_ms }
  { st with
    error_history := st.error_history.set st.error_index err,
    error_count := (st.error_count + 1) % 65536,
    critical_error_flag :=
      if severity ≥ 3 then true else st.critical_error_flag,
    error_index := (st.error_index + 1) % MAX_ERROR_HISTORY }

/-- `error_get_last`: the slot just before `error_index`, wrapping to
the last slot when `error_index` is 0. -/
def error_get_last (st : error_state) : error_t :=
  let last_index :=
    if st.error_index > 0 then st.error_index - 1 else MAX_ERROR_HISTORY - 1
  st.error_history.getD last_index error_zero

/-- `error_clear`: resets every static variable, like `error_init`. -/
def error_clear (_st : error_state) : error_state :=
  { error_history := List.replicate MAX_ERROR_HISTORY error_zero,
    error_count := 0, error_index := 0, critical_error_flag := false }

/-- `error_is_critical`. -/
def error_is_critical (st : error_state) : Bool :=
  st.critical_error_flag

/-- `error_get_count`. -/
def error_get_count (st : error_state) : Nat :=
  st.error_count

/-- Apply `error_report` for each `(code, severity, message)` triple of
a list, left to right. -/
def error_report_seq (st : error_state)
    (rs : List (Nat × Nat × Option String)) : error_state :=
  rs.foldl (fun s r => error_report s r.1 r.2.1 r.2.2) st

/-! ## ADC driver (src/src/core/adc.c, src/unnamed/part_001) -/

/-- `ADC_REFERENCE_MV` (3.3 V reference) from the configuration. -/
def ADC_REFERENCE_MV : Nat := 3300

/-- `ADC_MAX_VALUE = (1 << 12) - 1 = 4095` from the configuration. -/
def ADC_MAX_VALUE : Nat := 4095

/-- `adc_raw_to_voltage_mv`: `(raw_value * ADC_REFERENCE_MV) / ADC_MAX_VALUE`.
In C `raw_value` is a `uint16_t` promoted to `int`; the product is at
most `65535 * 3300 < 2^31`, so the `int` arithmetic never overflows and
its truncating division on non-negative operands is exactly `Nat`
division. -/
def adc_raw_to_voltage_mv (raw_value : Nat) : Nat :=
  (raw_value * ADC_REFERENCE_MV) / ADC_MAX_VALUE

/-- `adc_status_t` from include/core/adc.h. -/
inductive adc_status_t where
  | ADC_STATUS_OK
  | ADC_STATUS_ERROR
  | ADC_STATUS_NOT_READY
  | ADC_STATUS_TIMEOUT
deriving Repr, DecidableEq

/-- `adc_reading_t` from include/core/adc.h (the `timestamp_ms` field is
never written by the driver and is omitted). -/
structure adc_reading_t where
  raw_value       : Nat
  voltage_mv      : Nat
  voltage_whole   : Nat
  voltage_decimal : Nat
  status          : adc_status_t
deriving Repr, DecidableEq

/-- The ADC module's static variables: `adc_raw_value` (a `uint16_t`
written by the DMA channel), `adc_status`, and the interrupt-to-
foreground handoff flag `adc_conversion_complete`. -/
structure adc_state where
  adc_raw_value           : Nat
  adc_status              : adc_status_t
  adc_conversion_complete : Bool
deriving Repr, DecidableEq

/-- `adc_get_reading`: returns the status, the record written through
the `reading` out-pointer (`none` when the code returns before filling
it), and the updated module state. `reading_nonnull` models the
`reading == NULL` guard. On success the handoff flag is cleared. -/
def adc_get_reading (reading_nonnull : Bool) (st : adc_state) :
    adc_status_t × Option adc_reading_t × adc_state :=
  if !reading_nonnull then
    (adc_status_t.ADC_STATUS_ERROR, none, st)
  else if !st.adc_conversion_complete then
    (adc_status_t.ADC_STATUS_NOT_READY, none, st)
  else
    let mv := adc_raw_to_voltage_mv st.adc_raw_value
    (adc_status_t.ADC_STATUS_OK,
     some { raw_value := st.adc_raw_value, voltage_mv := mv,
            voltage_whole := mv / 1000, voltage_decimal := mv % 1000,
            status := st.adc_status },
     { st with adc_conversion_complete := false })

/-- `DMA2_Stream0_IRQHandler`: when the transfer-complete flag `TCIF0`
is pending in `DMA2->LISR` (argument `tcif0`), the handler acknowledges
it in hardware (outside the modelled state) and sets the handoff flag. -/
def DMA2_Stream0_IRQHandler (st : adc_state) (tcif0 : Bool) : adc_state :=
  if tcif0 then { st with adc_conversion_complete := true } else st

/-! ## Helper lemmas -/

/-- One `error_report` leaves the critical flag set if it was set. -/
theorem error_report_keeps_critical (st : error_state) (c s : Nat)
    (m : Option String) (h : error_is_critical st = true) :
    error_is_critical (error_report st c s m) = true := by
  simp only [error_is_critical, error_report] at h ⊢
  split
  · rfl
  · exact h

/-- A sequence of `error_report` calls leaves the critical flag set if
it was set. -/
theorem error_report_seq_keeps_critical (st : error_state)
    (rs : List (Nat × Nat × Option String))
    (h : error_is_critical st = true) :
    error_is_critical (error_report_seq st rs) = true := by
  induction rs generalizing st with
  | nil => exact h
  | cons r rs ih =>
      exact ih (error_report st r.1 r.2.1 r.2.2)
        (error_report_keeps_critical st r.1 r.2.1 r.2.2 h)

/-- One `error_report` advances the 16-bit total count by one, modulo
`2^16`. -/
theorem error_report_count (st : error_state) (c s : Nat) (m : Option String) :
    error_get_count (error_report st c s m) = (error_get_count st + 1) % 65536 :=
  rfl

/-- After a sequence of reports the 16-bit total count is the old count
plus the number of reports, modulo `2^16`. -/
theorem error_report_seq_count (rs : List (Nat × Nat × Option String))
    (st : error_state) (h : error_get_count st < 65536) :
    error_get_count (error_report_seq st rs)
      = (error_get_count st + rs.length) % 65536 := by
  induction rs generalizing st with
  | nil => simpa [error_report_seq] using (Nat.mod_eq_of_lt h).symm
  | cons r rs ih =>
      have h1 : error_get_count (error_report st r.1 r.2.1 r.2.2) < 65536 := by
        rw [error_report_count]; exact Nat.mod_lt _ (by omega)
      have h2 := ih (error_report st r.1 r.2.1 r.2.2) h1
      simp only [error_report_seq, List.foldl_cons, List.length_cons] at h2 ⊢
      rw [h2, error_report_count]
      omega

/-! ## The claims -/

/-- C1: the spec claims that after writing [1,2,3,4,5] into a capacity-4
buffer the buffer holds the last 4 values [2,3,4,5] in insertion order
with `count = 4`.  The code keeps `count = 4` but the FIFO window is
shifted: draining the buffer returns [3,4,5,2], because
`ring_buffer_write` already advances `tail` at the write that merely
makes the buffer full (the 4th), before anything is overwritten. -/
theorem C1_code_behavior :
    ring_buffer_count
        (ring_buffer_write_seq (ring_buffer_init [0, 0, 0, 0]) [1, 2, 3, 4, 5]) = 4
    ∧ ring_buffer_drain 4
        (ring_buffer_write_seq (ring_buffer_init [0, 0, 0, 0]) [1, 2, 3, 4, 5])
        = [3, 4, 5, 2]
    ∧ [3, 4, 5, 2] ≠ ([2, 3, 4, 5] : List Nat) := by
  decide

/-- C3: the spec claims reads return values in FIFO order matching write
order.  Already without any overwrite this fails: writing [1,2,3,4] into
a capacity-4 buffer and then draining returns [2,3,4,1] (the value 1 was
written first and never overwritten, yet is returned last).  The
`peek 0 = next read` half of the claim does hold at this state. -/
theorem C3_code_behavior :
    ring_buffer_drain 4
        (ring_buffer_write_seq (ring_buffer_init [0, 0, 0, 0]) [1, 2, 3, 4])
        = [2, 3, 4, 1]
    ∧ (ring_buffer_peek
        (ring_buffer_write_seq (ring_buffer_init [0, 0, 0, 0]) [1, 2, 3, 4]) 0).2
      = (ring_buffer_read
        (ring_buffer_write_seq (ring_buffer_init [0, 0, 0, 0]) [1, 2, 3, 4])).2.2
    ∧ [2, 3, 4, 1] ≠ ([1, 2, 3, 4] : List Nat) := by
  decide

/-- C2 counterexample: the claim (following the spec) says raw=2048
yields 1649 mV, but `(2048 * 3300) / 4095 = 1650`. -/
theorem C2_counterexample :
    adc_raw_to_voltage_mv 2048 = 1650 ∧ adc_raw_to_voltage_mv 2048 ≠ 1649 := by
  decide

/-- C2 (amended): the conversion is the truncating integer division
`(raw * 3300) / 4095`; raw=0 gives 0 mV, raw=4095 gives 3300 mV, and
raw=2048 gives 1650 mV (not 1649 as the spec computes). -/
theorem C2_amended_conversion :
    (∀ raw, adc_raw_to_voltage_mv raw = (raw * 3300) / 4095)
    ∧ adc_raw_to_voltage_mv 0 = 0
    ∧ adc_raw_to_voltage_mv 4095 = 3300
    ∧ adc_raw_to_voltage_mv 2048 = 1650 :=
  ⟨fun _ => rfl, by decide, by decide, by decide⟩

/-- C4: after 12 reports into the capacity-10 history,
`error_get_count` returns 12, the stored records are exactly the 10 most
recent reports (codes 3..12, laid out as [11,12,3,4,5,6,7,8,9,10] in the
array), and `error_get_last` returns the 12th report's record. -/
theorem C4_error_history_12 :
    error_get_count (error_report_seq error_init
        [(1, 1, none), (2, 1, none), (3, 1, none), (4, 1, none), (5, 1, none),
         (6, 1, none), (7, 1, none), (8, 1, none), (9, 1, none), (10, 1, none),
         (11, 1, none), (12, 1, none)]) = 12
    ∧ (error_report_seq error_init
        [(1, 1, none), (2, 1, none), (3, 1, none), (4, 1, none), (5, 1, none),
         (6, 1, none), (7, 1, none), (8, 1, none), (9, 1, none), (10, 1, none),
         (11, 1, none), (12, 1, none)]).error_history.map (fun e => e.code)
      = [11, 12, 3, 4, 5, 6, 7, 8, 9, 10]
    ∧ error_get_last (error_report_seq error_init
        [(1, 1, none), (2, 1, none), (3, 1, none), (4, 1, none), (5, 1, none),
         (6, 1, none), (7, 1, none), (8, 1, none), (9, 1, none), (10, 1, none),
         (11, 1, none), (12, 1, none)])
      = { code := 12, timestamp_ms := 0, severity := 1, message := none } := by
  decide

/-- C5: reporting with severity ≥ 3 sets the critical flag; once set it
survives any sequence of further reports of any severity; `error_clear`
resets the flag to false and the total count to 0. -/
theorem C5_sticky_critical :
    (∀ st c s m, 3 ≤ s → error_is_critical (error_report st c s m) = true)
    ∧ (∀ st rs, error_is_critical st = true →
        error_is_critical (error_report_seq st rs) = true)
    ∧ (∀ st, error_is_critical (error_clear st) = false
        ∧ error_get_count (error_clear st) = 0) := by
  refine ⟨fun st c s m h => ?_, error_report_seq_keeps_critical,
          fun st => ⟨rfl, rfl⟩⟩
  simp only [error_is_critical, error_report]
  exact if_pos h

/-- C5 witness: the three parts of `C5_sticky_critical` at concrete
inputs. -/
theorem C5_sticky_critical_witness :
    error_is_critical (error_report error_init 1 3 none) = true
    ∧ error_is_critical
        (error_report_seq (error_report error_init 1 3 none) [(2, 0, none)]) = true
    ∧ error_is_critical (error_clear error_init) = false
    ∧ error_get_count (error_clear error_init) = 0 :=
  ⟨C5_sticky_critical.1 error_init 1 3 none (by decide),
   C5_sticky_critical.2.1 (error_report error_init 1 3 none) [(2, 0, none)]
     (by decide),
   (C5_sticky_critical.2.2 error_init).1,
   (C5_sticky_critical.2.2 error_init).2⟩

/-- C7 counterexample: `error_count` is a `uint16_t`; after 65535
reports since the last clear the count is 65535 and one more report
wraps it to 0, so the count is not strictly increasing at that state. -/
theorem C7_counterexample :
    error_get_count (error_report_seq error_init
        (List.replicate 65535 (0, 0, none))) = 65535
    ∧ error_get_count (error_report (error_report_seq error_init
        (List.replicate 65535 (0, 0, none))) 0 0 none) = 0 := by
  have h := error_report_seq_count
    (List.replicate 65535 ((0 : Nat), (0 : Nat), (none : Option String)))
    error_init (by decide)
  have h0 : error_get_count error_init = 0 := rfl
  simp only [List.length_replicate, h0] at h
  constructor
  · omega
  · rw [error_report_count, h]

/-- C7 (amended): the total count increases by exactly one per report —
hence is strictly increasing — as long as fewer than 65535 reports have
happened since the last clear; at the 65536th report the 16-bit counter
wraps to 0. -/
theorem C7_amended_monotone (rs : List (Nat × Nat × Option String))
    (c s : Nat) (m : Option String) (h : rs.length < 65535) :
    error_get_count (error_report_seq error_init rs)
      < error_get_count (error_report (error_report_seq error_init rs) c s m) := by
  have h1 := error_report_seq_count rs error_init (by decide)
  have h0 : error_get_count error_init = 0 := rfl
  rw [h0] at h1
  rw [error_report_count, h1]
  omega

/-- C7 amended witness: `C7_amended_monotone` after a single report. -/
theorem C7_amended_monotone_witness :
    error_get_count (error_report_seq error_init [(1, 0, none)])
      < error_get_count
          (error_report (error_report_seq error_init [(1, 0, none)]) 2 0 none) :=
  C7_amended_monotone [(1, 0, none)] 2 0 none (by decide)

/-- C6: the foreground never observes "ready" twice without an
intervening interrupt set: whenever `adc_get_reading` returns
`ADC_STATUS_OK` (clearing the handoff flag), an immediately following
call with no intervening `DMA2_Stream0_IRQHandler` set returns
`ADC_STATUS_NOT_READY` and leaves the state unchanged (so any number of
further set-free calls also return `ADC_STATUS_NOT_READY`). -/
theorem C6_handoff_no_double_ready (st st' : adc_state)
    (r : Option adc_reading_t)
    (h : adc_get_reading true st = (adc_status_t.ADC_STATUS_OK, r, st')) :
    adc_get_reading true st' = (adc_status_t.ADC_STATUS_NOT_READY, none, st') := by
  by_cases hc : st.adc_conversion_complete
  · simp only [adc_get_reading, hc, Bool.not_true, Bool.false_eq_true,
      if_false, Bool.not_false, if_true, Prod.mk.injEq] at h
    have hst : st' = { st with adc_conversion_complete := false } := h.2.2.symm
    subst hst
    simp [adc_get_reading]
  · simp [adc_get_reading, hc] at h

/-- C6 witness: `C6_handoff_no_double_ready` at a concrete state with a
pending conversion of raw value 1000. -/
theorem C6_handoff_witness :
    adc_get_reading true
        { adc_raw_value := 1000, adc_status := adc_status_t.ADC_STATUS_OK,
          adc_conversion_complete := false }
      = (adc_status_t.ADC_STATUS_NOT_READY, none,
         { adc_raw_value := 1000, adc_status := adc_status_t.ADC_STATUS_OK,
           adc_conversion_complete := false }) :=
  C6_handoff_no_double_ready
    { adc_raw_value := 1000, adc_status := adc_status_t.ADC_STATUS_OK,
      adc_conversion_complete := true }
    { adc_raw_value := 1000, adc_status := adc_status_t.ADC_STATUS_OK,
      adc_conversion_complete := false }
    (some { raw_value := 1000, voltage_mv := 805, voltage_whole := 0,
            voltage_decimal := 805, status := adc_status_t.ADC_STATUS_OK })
    (by decide)

/-- C8: on a valid buffer, `ring_buffer_write` always returns true (even
when full); `ring_buffer_read` fails exactly when the buffer is empty
and leaves the buffer unchanged on failure; `ring_buffer_peek` fails
exactly when `offset ≥ count` (and, by its type in this embedding as in
the C source, never writes to the buffer). -/
theorem C8_error_contract :
    (∀ rb d, (ring_buffer_write rb d).1 = true)
    ∧ (∀ rb, ((ring_buffer_read rb).1 = false ↔ ring_buffer_is_empty rb = true)
        ∧ (ring_buffer_is_empty rb = true → (ring_buffer_read rb).2.1 = rb))
    ∧ (∀ rb off, ((ring_buffer_peek rb off).1 = false
        ↔ off ≥ ring_buffer_count rb)) := by
  refine ⟨fun rb d => ?_, fun rb => ?_, fun rb off => ?_⟩
  · simp only [ring_buffer_write]
    split <;> rfl
  · cases h : ring_buffer_is_empty rb <;>
      simp [ring_buffer_read, h]
  · by_cases h : off ≥ rb.count <;>
      simp [ring_buffer_peek, ring_buffer_count, h]

/-- C8 witness: `C8_error_contract` at a freshly initialised capacity-2
buffer (empty, so the read fails and leaves it unchanged) and at a
write into it. -/
theorem C8_error_contract_witness :
    (ring_buffer_write (ring_buffer_init [0, 0]) 7).1 = true
    ∧ (ring_buffer_read (ring_buffer_init [0, 0])).2.1 = ring_buffer_init [0, 0] :=
  ⟨C8_error_contract.1 (ring_buffer_init [0, 0]) 7,
   (C8_error_contract.2.1 (ring_buffer_init [0, 0])).2 (by decide)⟩

/-- C9: every ring-buffer entry point is total on a NULL `rb` pointer:
init/write/read/peek fail, `is_empty` reads true, `is_full` reads
false, `count` reads 0 and `clear` is a no-op, none of them touching the
(absent) pointee. -/
theorem C9_null_safety :
    (∀ store size, ring_buffer_init_ptr none store size = (false, none))
    ∧ (∀ d, ring_buffer_write_ptr none d = (false, none))
    ∧ ring_buffer_read_ptr none = (false, none, none)
    ∧ (∀ off, ring_buffer_peek_ptr none off = (false, none))
    ∧ ring_buffer_is_empty_ptr none = true
    ∧ ring_buffer_is_full_ptr none = false
    ∧ ring_buffer_count_ptr none = 0
    ∧ ring_buffer_clear_ptr none = none :=
  ⟨fun _ _ => rfl, fun _ => rfl, rfl, fun _ => rfl, rfl, rfl, rfl, rfl⟩

/-- C10: every reading a successful `adc_get_reading` call produces
satisfies `voltage_whole * 1000 + voltage_decimal = voltage_mv` with
`voltage_decimal < 1000`. -/
theorem C10_voltage_split (st st' : adc_state) (r : adc_reading_t)
    (h : adc_get_reading true st
          = (adc_status_t.ADC_STATUS_OK, some r, st')) :
    r.voltage_whole * 1000 + r.voltage_decimal = r.voltage_mv
    ∧ r.voltage_decimal < 1000 := by
  by_cases hc : st.adc_conversion_complete
  · simp only [adc_get_reading, hc, Bool.not_true, Bool.false_eq_true,
      if_false, Bool.not_false, if_true, Prod.mk.injEq, Option.some.injEq] at h
    have hr := h.2.1
    subst hr
    dsimp only
    omega
  · simp [adc_get_reading, hc] at h

/-- C10 witness: `C10_voltage_split` at raw value 2048, whose reading is
1650 mV split as 1 V and 650 mV. -/
theorem C10_voltage_split_witness :
    (adc_reading_t.mk 2048 1650 1 650 adc_status_t.ADC_STATUS_OK).voltage_whole
        * 1000
      + (adc_reading_t.mk 2048 1650 1 650
          adc_status_t.ADC_STATUS_OK).voltage_decimal
      = (adc_reading_t.mk 2048 1650 1 650 adc_status_t.ADC_STATUS_OK).voltage_mv
    ∧ (adc_reading_t.mk 2048 1650 1 650
        adc_status_t.ADC_STATUS_OK).voltage_decimal < 1000 :=
  C10_voltage_split
    { adc_raw_value := 2048, adc_status := adc_status_t.ADC_STATUS_OK,
      adc_conversion_complete := true }
    { adc_raw_value := 2048, adc_status := adc_status_t.ADC_STATUS_OK,
      adc_conversion_complete := false }
    (adc_reading_t.mk 2048 1650 1 650 adc_status_t.ADC_STATUS_OK)
    (by decide)

end STM32F4
